import Mathlib

/-!
# Verification of the dashboard tab contribution pipeline

Shallow embedding of `dashboardTab.contribution.ts` (the `dashboard.tabs`
extension-point handler of azuredatastudio): the per-record validation and
normalization function `handleTab`, the batch loop of `setHandler`, and the
fixed `TabGroups` registration sequence.

JavaScript dynamic typing is modelled explicitly where the code depends on
it: optional string fields are `Option String` with JS falsiness (`none` or
`some ""` is falsy), `provider` is a string-or-array union with JS
falsiness, `alwaysShow` and `isHomeTab` are tri-state (absent / boolean /
other value) because the code applies a strict `types.isBoolean` check to
`alwaysShow` and passes `isHomeTab` through untouched.

The per-kind container validators
(`validateWidgetContainerContribution`, `validateGridContainerContribution`,
`validateNavSectionContributionAndRegisterIcon`) live in files outside the
provided sources; `handleTab` only consumes their boolean verdict and lets
them talk to the diagnostic collector, so they are modelled as parameters
returning a verdict together with the diagnostics they emit.
-/

/-- A JSON-like value, the payload of a container entry. -/
inductive JsonVal where
  | null : JsonVal
  | bool (b : Bool) : JsonVal
  | num (n : Int) : JsonVal
  | str (s : String) : JsonVal
  | arr (l : List JsonVal) : JsonVal
  | obj (l : List (String × JsonVal)) : JsonVal

instance : Inhabited JsonVal := ⟨JsonVal.null⟩

/-- The `provider` field: absent, a string, or an array of strings. -/
inductive ProviderField where
  | absent : ProviderField
  | str (s : String) : ProviderField
  | arr (l : List String) : ProviderField
deriving DecidableEq, Repr

/-- JS falsiness of the `provider` field: `undefined` and `""` are falsy;
any array (even empty) is truthy. -/
def ProviderField.isFalsy : ProviderField → Bool
  | .absent => true
  | .str s => s == ""
  | .arr _ => false

/-- A field whose declared type is boolean but whose runtime value may be
absent or of another type (the schema is advisory, not enforced on types
the handler double-checks). -/
inductive BoolField where
  | absent : BoolField
  | bool (b : Bool) : BoolField
  | nonBool : BoolField
deriving DecidableEq, Repr

/-- `types.isBoolean`: a strict typeof check, true only for real booleans. -/
def isBoolean : BoolField → Bool
  | .bool _ => true
  | _ => false

/-- The `icon` field: absent, a string path, an object with optional
`light`/`dark` members, or a value of some other runtime type. -/
inductive IconField where
  | absent : IconField
  | str (s : String) : IconField
  | lightDark (light : Option String) (dark : Option String) : IconField
  | other (v : JsonVal) : IconField

/-- JS falsiness for an optional string field (`undefined` or `""`). -/
def strFalsy : Option String → Bool
  | none => true
  | some s => s == ""

/-- Raw tab contribution record (`IDashboardTabContrib`) as received by the
handler after host-side schema validation. -/
structure IDashboardTabContrib where
  id : Option String
  title : Option String
  container : Option (List (String × JsonVal))
  provider : ProviderField
  «when» : Option String
  description : Option String
  alwaysShow : BoolField
  isHomeTab : BoolField
  group : Option String
  icon : IconField

/-- Severity of a collector diagnostic. -/
inductive Severity where
  | error : Severity
  | warning : Severity
deriving DecidableEq, Repr

/-- A diagnostic sent to the extension's collector. -/
structure Diag where
  severity : Severity
  message : String
deriving DecidableEq, Repr

/-- The record passed to the `registerTab` sink: the object literal
`{ description, title, container, provider, when, id, alwaysShow,
publisher, isHomeTab, group, iconClass }`. -/
structure RegisteredTab where
  description : Option String
  title : Option String
  container : List (String × JsonVal)
  provider : ProviderField
  «when» : Option String
  id : Option String
  alwaysShow : Bool
  publisher : String
  isHomeTab : BoolField
  group : Option String
  iconClass : Option String

/-- Container kind key contributed by `dashboardWidgetContainer.contribution`. -/
def WIDGETS_CONTAINER : String := "widgets-container"

/-- Container kind key contributed by `dashboardGridContainer.contribution`. -/
def GRID_CONTAINER : String := "grid-container"

/-- Container kind key contributed by `dashboardNavSection.contribution`. -/
def NAV_SECTION : String := "nav-section"

/-- Modelled from the spec: `Constants.mssqlProviderName` is defined in
`sql/platform/connection/common/constants`, which is not among the provided
sources; the spec calls it the fixed default provider name, `'MSSQL'`. -/
def mssqlProviderName : String := "MSSQL"

/-- The three per-kind container validators, external to this file in the
source (imported functions). Each receives the container value, returns its
boolean verdict, and may emit diagnostics through the collector. -/
structure Validators where
  widget : JsonVal → Bool × List Diag
  grid : JsonVal → Bool × List Diag
  nav : JsonVal → Bool × List Diag

/-- Modelled from the spec: `isValidIcon` lives in `dashboardIconUtil`,
not among the provided sources; per the spec an icon passes shape
validation when it is a plain string path or an object with `light`/`dark`
string paths. -/
def isValidIcon : IconField → Bool
  | .str _ => true
  | .lightDark (some _) (some _) => true
  | _ => false

/-- Modelled from the spec: `createCSSRuleForIcon` (also in
`dashboardIconUtil`) resolves a valid icon into an opaque icon-class token
scoped to the contributing extension. -/
def createCSSRuleForIcon (icon : IconField) (publisher : String) : String :=
  match icon with
  | .str s => publisher ++ "-icon-" ++ s
  | .lightDark (some l) (some d) => publisher ++ "-icon-" ++ l ++ "-" ++ d
  | _ => publisher ++ "-icon"

/-- The `switch (containerkey)` dispatch: the verdict variable `result` is
initialized to `true` and only the three known kinds run a validator; an
unknown key falls through with no case, leaving `result` true and emitting
nothing. -/
def dispatchContainer (v : Validators) (key : String) (val : JsonVal) :
    Bool × List Diag :=
  if key == WIDGETS_CONTAINER then v.widget val
  else if key == GRID_CONTAINER then v.grid val
  else if key == NAV_SECTION then v.nav val
  else (true, [])

/-- Diagnostic for a record with no title. -/
def noTitleDiag : Diag :=
  ⟨.error, "No title specified for extension."⟩

/-- Diagnostic for a record with no description. -/
def noDescriptionDiag : Diag :=
  ⟨.warning, "No description specified to show."⟩

/-- Diagnostic for a record with no container. -/
def noContainerDiag : Diag :=
  ⟨.error, "No container specified for extension."⟩

/-- Diagnostic for a container mapping without exactly one key. -/
def containerArityDiag : Diag :=
  ⟨.error, "Exactly 1 dashboard container must be defined per space"⟩

/-- `handleTab`, embedded step for step from the source: coerce
`alwaysShow`, title check (abort), description warning, container presence
check (abort), provider defaulting with the `isHomeTab` override, container
arity check (abort), kind dispatch, icon resolution, final registration
gate. Returns the diagnostics emitted through the collector, in order, and
the record handed to `registerTab` when registration happens. -/
def handleTab (v : Validators) (publisher : String)
    (tab : IDashboardTabContrib) : List Diag × Option RegisteredTab :=
  let alwaysShow : Bool :=
    match tab.alwaysShow with
    | .bool b => b
    | _ => true
  if strFalsy tab.title then
    ([noTitleDiag], none)
  else
    let warns := if strFalsy tab.description then [noDescriptionDiag] else []
    match tab.container with
    | none => (warns ++ [noContainerDiag], none)
    | some container =>
      let provider :=
        if tab.provider.isFalsy then ProviderField.str mssqlProviderName
        else tab.provider
      let isHomeTab :=
        if tab.provider.isFalsy then BoolField.bool false else tab.isHomeTab
      if container.length ≠ 1 then
        (warns ++ [containerArityDiag], none)
      else
        let containerkey := (container.map Prod.fst).headI
        let containerValue := (container.map Prod.snd).headI
        let res := dispatchContainer v containerkey containerValue
        let iconClass :=
          if isValidIcon tab.icon then
            some (createCSSRuleForIcon tab.icon publisher)
          else none
        if res.1 then
          (warns ++ res.2,
            some { description := tab.description, title := tab.title,
                   container := container, provider := provider,
                   «when» := tab.«when», id := tab.id,
                   alwaysShow := alwaysShow, publisher := publisher,
                   isHomeTab := isHomeTab, group := tab.group,
                   iconClass := iconClass })
        else
          (warns ++ res.2, none)

/-- The loop body of `setHandler` for the list form of the contribution
value: `handleTab` on each record in order, with one shared collector and
registration sink. Diagnostics and registrations accumulate in input
order. -/
def processTabs (v : Validators) (publisher : String)
    (tabs : List IDashboardTabContrib) : List Diag × List RegisteredTab :=
  match tabs with
  | [] => ([], [])
  | t :: ts =>
    let r := handleTab v publisher t
    let rest := processTabs v publisher ts
    (r.1 ++ rest.1, r.2.toList ++ rest.2)

/-- The contribution value is a single record or an array of records. -/
def contributionToList :
    IDashboardTabContrib ⊕ List IDashboardTabContrib →
      List IDashboardTabContrib
  | .inl t => [t]
  | .inr l => l

/-- `setHandler` on one extension's contribution value. -/
def processContribution (v : Validators) (publisher : String)
    (value : IDashboardTabContrib ⊕ List IDashboardTabContrib) :
    List Diag × List RegisteredTab :=
  processTabs v publisher (contributionToList value)

/-- A dashboard tab group (`IDashboardTabGroup`). -/
structure IDashboardTabGroup where
  id : String
  title : String
deriving DecidableEq, Repr

/-- The hard-coded `TabGroups` array, in its declared order. -/
def TabGroups : List IDashboardTabGroup :=
  [ ⟨"administration", "Administration"⟩,
    ⟨"monitoring", "Monitoring"⟩,
    ⟨"performance", "Performance"⟩,
    ⟨"security", "Security"⟩,
    ⟨"troubleshooting", "Troubleshooting"⟩,
    ⟨"settings", "Settings"⟩ ]

/-- `TabGroups.forEach(tabGroup => registerTabGroup(tabGroup))`: the
sequence of arguments passed to the `registerTabGroup` sink at startup. -/
def tabGroupRegistrations : List IDashboardTabGroup :=
  TabGroups.foldl (fun acc g => acc ++ [g]) []

/-- The description warning emitted for a record, when any: present once a
record survives the title check, before the later checks run. -/
def warnsOf (t : IDashboardTabContrib) : List Diag :=
  if strFalsy t.description then [noDescriptionDiag] else []

/-- The record `handleTab` hands to `registerTab` when every check passes,
expressed as a function of the raw record: defaulted provider, forced
`isHomeTab`, coerced `alwaysShow`, derived `publisher` and `iconClass`. -/
def normalizedRecord (publisher : String) (t : IDashboardTabContrib) :
    RegisteredTab :=
  { description := t.description, title := t.title,
    container := t.container.getD [],
    provider :=
      if t.provider.isFalsy then ProviderField.str mssqlProviderName
      else t.provider,
    «when» := t.«when», id := t.id,
    alwaysShow := match t.alwaysShow with | .bool b => b | _ => true,
    publisher := publisher,
    isHomeTab :=
      if t.provider.isFalsy then BoolField.bool false else t.isHomeTab,
    group := t.group,
    iconClass :=
      if isValidIcon t.icon then
        some (createCSSRuleForIcon t.icon publisher)
      else none }

/-- The structural acceptance verdict for one record: truthy title, present
container, exactly one container key, and an accepting kind dispatch. -/
def passesChecks (v : Validators) (t : IDashboardTabContrib) : Bool :=
  !strFalsy t.title &&
    match t.container with
    | none => false
    | some c =>
      c.length == 1 &&
        (dispatchContainer v (c.map Prod.fst).headI
          (c.map Prod.snd).headI).1

theorem handleTab_title_falsy (v : Validators) (pub : String)
    (t : IDashboardTabContrib) (ht : strFalsy t.title = true) :
    handleTab v pub t = ([noTitleDiag], none) := by
  simp [handleTab, ht]

theorem handleTab_no_container (v : Validators) (pub : String)
    (t : IDashboardTabContrib) (ht : strFalsy t.title = false)
    (hc : t.container = none) :
    handleTab v pub t = (warnsOf t ++ [noContainerDiag], none) := by
  simp [handleTab, ht, hc, warnsOf]

theorem handleTab_bad_arity (v : Validators) (pub : String)
    (t : IDashboardTabContrib) (c : List (String × JsonVal))
    (ht : strFalsy t.title = false) (hc : t.container = some c)
    (hl : c.length ≠ 1) :
    handleTab v pub t = (warnsOf t ++ [containerArityDiag], none) := by
  simp [handleTab, ht, hc, hl, warnsOf]

theorem handleTab_single (v : Validators) (pub : String)
    (t : IDashboardTabContrib) (k : String) (val : JsonVal)
    (ht : strFalsy t.title = false)
    (hc : t.container = some [(k, val)]) :
    handleTab v pub t =
      (warnsOf t ++ (dispatchContainer v k val).2,
        if (dispatchContainer v k val).1 then
          some (normalizedRecord pub t)
        else none) := by
  simp only [handleTab, ht, Bool.false_eq_true, if_false, hc, warnsOf,
    normalizedRecord, List.length_cons, List.length_nil, ne_eq,
    Nat.succ_ne_self, List.map_cons, List.map_nil, List.headI,
    Option.getD_some]
  by_cases hres : (dispatchContainer v k val).1 <;> simp [hres]

theorem handleTab_registration (v : Validators) (pub : String)
    (t : IDashboardTabContrib) :
    (handleTab v pub t).2 =
      if passesChecks v t then some (normalizedRecord pub t) else none := by
  by_cases ht : strFalsy t.title
  · simp [handleTab_title_falsy v pub t ht, passesChecks, ht]
  · simp only [Bool.not_eq_true] at ht
    match hc : t.container with
    | none =>
      simp [handleTab_no_container v pub t ht hc, passesChecks, ht, hc]
    | some c =>
      by_cases hl : c.length = 1
      · obtain ⟨p, hp⟩ := List.length_eq_one.mp hl
        obtain ⟨k, val⟩ := p
        rw [hp] at hc
        rw [handleTab_single v pub t k val ht hc]
        simp [passesChecks, ht, hc, dispatchContainer]
      · simp [handleTab_bad_arity v pub t c ht hc hl, passesChecks, ht, hc,
          hl]

theorem processTabs_registrations (v : Validators) (pub : String)
    (tabs : List IDashboardTabContrib) :
    (processTabs v pub tabs).2 =
      (tabs.filter (passesChecks v)).map (normalizedRecord pub) := by
  induction tabs with
  | nil => simp [processTabs]
  | cons t ts ih =>
    simp only [processTabs, ih]
    rw [List.filter_cons]
    by_cases hp : passesChecks v t
    · simp [hp, handleTab_registration, Option.toList]
    · simp [hp, handleTab_registration, Option.toList]

theorem processTabs_diags (v : Validators) (pub : String)
    (tabs : List IDashboardTabContrib) :
    (processTabs v pub tabs).1 =
      (tabs.map (fun t => (handleTab v pub t).1)).flatten := by
  induction tabs with
  | nil => simp [processTabs]
  | cons t ts ih => simp [processTabs, ih]

/-- The plugged-in container validators report a failed verdict through the
collector: whenever one returns `false` it has emitted at least one
error-severity diagnostic. The real validators behave this way; `handleTab`
itself emits nothing for a failed dispatch. -/
def validatorsReportFailures (v : Validators) : Prop :=
  (∀ val, (v.widget val).1 = false →
    ∃ d ∈ (v.widget val).2, d.severity = Severity.error) ∧
  (∀ val, (v.grid val).1 = false →
    ∃ d ∈ (v.grid val).2, d.severity = Severity.error) ∧
  (∀ val, (v.nav val).1 = false →
    ∃ d ∈ (v.nav val).2, d.severity = Severity.error)

theorem dispatchContainer_failure_diag (v : Validators)
    (hv : validatorsReportFailures v) (k : String) (val : JsonVal)
    (hres : (dispatchContainer v k val).1 = false) :
    ∃ d ∈ (dispatchContainer v k val).2, d.severity = Severity.error := by
  obtain ⟨hw, hg, hn⟩ := hv
  unfold dispatchContainer at hres ⊢
  by_cases h1 : k == WIDGETS_CONTAINER
  · simp only [h1, if_true] at hres ⊢; exact hw val hres
  · simp only [h1, if_false] at hres ⊢
    by_cases h2 : k == GRID_CONTAINER
    · simp only [h2, if_true] at hres ⊢; exact hg val hres
    · simp only [h2, if_false] at hres ⊢
      by_cases h3 : k == NAV_SECTION
      · simp only [h3, if_true] at hres ⊢; exact hn val hres
      · simp only [h3, if_false] at hres; simp at hres

theorem handleTab_rejected_error (v : Validators)
    (hv : validatorsReportFailures v) (pub : String)
    (t : IDashboardTabContrib) (hrej : passesChecks v t = false) :
    ∃ d ∈ (handleTab v pub t).1, d.severity = Severity.error := by
  by_cases ht : strFalsy t.title
  · rw [handleTab_title_falsy v pub t ht]
    exact ⟨noTitleDiag, by simp, rfl⟩
  · simp only [Bool.not_eq_true] at ht
    match hc : t.container with
    | none =>
      rw [handleTab_no_container v pub t ht hc]
      exact ⟨noContainerDiag, by simp, rfl⟩
    | some c =>
      by_cases hl : c.length = 1
      · obtain ⟨p, hp⟩ := List.length_eq_one.mp hl
        obtain ⟨k, val⟩ := p
        rw [hp] at hc
        rw [handleTab_single v pub t k val ht hc]
        have hres : (dispatchContainer v k val).1 = false := by
          cases hb : (dispatchContainer v k val).1 with
          | false => rfl
          | true =>
            have hpass : passesChecks v t = true := by
              simp [passesChecks, ht, hc, hb]
            rw [hpass] at hrej
            cases hrej
        obtain ⟨d, hd, hds⟩ := dispatchContainer_failure_diag v hv k val hres
        exact ⟨d, by simp [hd], hds⟩
      · rw [handleTab_bad_arity v pub t c ht hc hl]
        exact ⟨containerArityDiag, by simp, rfl⟩

/-- Validators that accept every container value and emit no diagnostics;
used to instantiate the theorems at concrete inputs. -/
def okValidators : Validators :=
  ⟨fun _ => (true, []), fun _ => (true, []), fun _ => (true, [])⟩

/-- Validators that reject every grid container with one error diagnostic
and silently accept the other kinds. -/
def gridRejectValidators : Validators :=
  ⟨fun _ => (true, []),
    fun _ => (false, [⟨Severity.error, "grid container invalid"⟩]),
    fun _ => (true, [])⟩

theorem okValidators_report : validatorsReportFailures okValidators := by
  unfold validatorsReportFailures
  refine ⟨?_, ?_, ?_⟩ <;> intro val h <;> simp [okValidators] at h

theorem gridRejectValidators_report :
    validatorsReportFailures gridRejectValidators := by
  unfold validatorsReportFailures
  refine ⟨?_, ?_, ?_⟩ <;> intro val h
  · simp [gridRejectValidators] at h
  · exact ⟨⟨Severity.error, "grid container invalid"⟩,
      by simp [gridRejectValidators], rfl⟩
  · simp [gridRejectValidators] at h

/-- A well-formed widgets-container record used as a concrete input. -/
def demoValidTab : IDashboardTabContrib :=
  { id := some "t1", title := some "Tasks",
    container := some [(WIDGETS_CONTAINER, JsonVal.arr [])],
    provider := ProviderField.str "MSSQL", «when» := none,
    description := some "demo tab", alwaysShow := BoolField.absent,
    isHomeTab := BoolField.absent, group := none,
    icon := IconField.absent }

/-- `demoValidTab` without a provider but explicitly flagged as home tab. -/
def demoNoProviderTab : IDashboardTabContrib :=
  { demoValidTab with provider := ProviderField.absent,
                      isHomeTab := BoolField.bool true }

/-- C1: if a record's provider field is absent and the record registers,
the registered record's provider is the fixed default provider name and
its isHomeTab is the boolean false, whatever isHomeTab the input carried. -/
theorem c1_absent_provider_forces_defaults (v : Validators) (pub : String)
    (t : IDashboardTabContrib) (r : RegisteredTab)
    (hp : t.provider = ProviderField.absent)
    (hr : (handleTab v pub t).2 = some r) :
    r.provider = ProviderField.str mssqlProviderName ∧
      r.isHomeTab = BoolField.bool false := by
  rw [handleTab_registration] at hr
  by_cases hpass : passesChecks v t
  · rw [hpass, if_pos rfl] at hr
    cases hr
    simp [normalizedRecord, hp, ProviderField.isFalsy]
  · simp [hpass] at hr

/-- C1 witness: a concrete provider-less record with an explicit
`isHomeTab = true` registers with the default provider and home flag off. -/
theorem c1_witness :
    demoNoProviderTab.provider = ProviderField.absent ∧
      (handleTab okValidators "pub1" demoNoProviderTab).2 =
        some (normalizedRecord "pub1" demoNoProviderTab) ∧
      ((normalizedRecord "pub1" demoNoProviderTab).provider =
          ProviderField.str mssqlProviderName ∧
        (normalizedRecord "pub1" demoNoProviderTab).isHomeTab =
          BoolField.bool false) :=
  ⟨rfl, rfl,
    c1_absent_provider_forces_defaults okValidators "pub1" demoNoProviderTab
      (normalizedRecord "pub1" demoNoProviderTab) rfl rfl⟩

/-- `demoValidTab` with an empty-string provider and an explicit home
flag. -/
def demoEmptyProviderTab : IDashboardTabContrib :=
  { demoValidTab with provider := ProviderField.str "",
                      isHomeTab := BoolField.bool true }

/-- C9: a present but empty-string provider is falsy and is treated exactly
like an absent provider: default provider substituted, isHomeTab forced
false, and the whole processing result coincides with the absent-provider
variant of the record. -/
theorem c9_empty_provider_like_absent (v : Validators) (pub : String)
    (t : IDashboardTabContrib) (r : RegisteredTab)
    (hp : t.provider = ProviderField.str "")
    (hr : (handleTab v pub t).2 = some r) :
    (r.provider = ProviderField.str mssqlProviderName ∧
        r.isHomeTab = BoolField.bool false) ∧
      handleTab v pub t =
        handleTab v pub { t with provider := ProviderField.absent } := by
  constructor
  · rw [handleTab_registration] at hr
    by_cases hpass : passesChecks v t
    · rw [hpass, if_pos rfl] at hr
      cases hr
      simp [normalizedRecord, hp, ProviderField.isFalsy]
    · simp [hpass] at hr
  · unfold handleTab
    simp [hp, ProviderField.isFalsy]

/-- C9 witness: the empty-provider record registers with the default
provider and home flag off, and processes identically to its
absent-provider variant. -/
theorem c9_witness :
    demoEmptyProviderTab.provider = ProviderField.str "" ∧
      (handleTab okValidators "pub9" demoEmptyProviderTab).2 =
        some (normalizedRecord "pub9" demoEmptyProviderTab) ∧
      (((normalizedRecord "pub9" demoEmptyProviderTab).provider =
            ProviderField.str mssqlProviderName ∧
          (normalizedRecord "pub9" demoEmptyProviderTab).isHomeTab =
            BoolField.bool false) ∧
        handleTab okValidators "pub9" demoEmptyProviderTab =
          handleTab okValidators "pub9"
            { demoEmptyProviderTab with
                provider := ProviderField.absent }) :=
  ⟨rfl, rfl,
    c9_empty_provider_like_absent okValidators "pub9" demoEmptyProviderTab
      (normalizedRecord "pub9" demoEmptyProviderTab) rfl rfl⟩

/-- `demoValidTab` with a non-boolean runtime value in alwaysShow. -/
def demoNonBoolAlwaysTab : IDashboardTabContrib :=
  { demoValidTab with alwaysShow := BoolField.nonBool }

/-- C6: when a record registers, its alwaysShow is true whenever the input
value was absent or failed the strict boolean check, and is preserved
unchanged whenever the input value was a real boolean (including false). -/
theorem c6_alwaysShow_coercion (v : Validators) (pub : String)
    (t : IDashboardTabContrib) (r : RegisteredTab)
    (hr : (handleTab v pub t).2 = some r) :
    (isBoolean t.alwaysShow = false → r.alwaysShow = true) ∧
      ∀ b, t.alwaysShow = BoolField.bool b → r.alwaysShow = b := by
  rw [handleTab_registration] at hr
  by_cases hpass : passesChecks v t
  · rw [hpass, if_pos rfl] at hr
    cases hr
    constructor
    · intro h
      match ha : t.alwaysShow with
      | .absent => simp [normalizedRecord, ha]
      | .bool b => rw [ha] at h; simp [isBoolean] at h
      | .nonBool => simp [normalizedRecord, ha]
    · intro b hb
      simp [normalizedRecord, hb]
  · simp [hpass] at hr

/-- C6 witness: a record whose alwaysShow holds a non-boolean value
registers with alwaysShow coerced to true. -/
theorem c6_witness :
    (handleTab okValidators "pub6" demoNonBoolAlwaysTab).2 =
        some (normalizedRecord "pub6" demoNonBoolAlwaysTab) ∧
      ((isBoolean demoNonBoolAlwaysTab.alwaysShow = false →
          (normalizedRecord "pub6" demoNonBoolAlwaysTab).alwaysShow =
            true) ∧
        ∀ b, demoNonBoolAlwaysTab.alwaysShow = BoolField.bool b →
          (normalizedRecord "pub6" demoNonBoolAlwaysTab).alwaysShow = b) :=
  ⟨rfl,
    c6_alwaysShow_coercion okValidators "pub6" demoNonBoolAlwaysTab
      (normalizedRecord "pub6" demoNonBoolAlwaysTab) rfl⟩

/-- `demoValidTab` carrying the number 42 in its icon field. -/
def demoBadIconTab : IDashboardTabContrib :=
  { demoValidTab with icon := IconField.other (JsonVal.num 42) }

/-- C7: when a record registers, a shape-valid icon yields a resolved
icon-class token and a shape-invalid icon yields no token; moreover whether
the record registers does not depend on the icon field at all — icon
failure degrades to a missing icon, never to rejection. -/
theorem c7_icon_degrades (v : Validators) (pub : String)
    (t : IDashboardTabContrib) (r : RegisteredTab)
    (hr : (handleTab v pub t).2 = some r) :
    (isValidIcon t.icon = true →
        r.iconClass = some (createCSSRuleForIcon t.icon pub)) ∧
      (isValidIcon t.icon = false → r.iconClass = none) ∧
      ∀ icon2, ((handleTab v pub { t with icon := icon2 }).2).isSome =
        true := by
  rw [handleTab_registration] at hr
  by_cases hpass : passesChecks v t
  · rw [hpass, if_pos rfl] at hr
    cases hr
    refine ⟨fun h => by simp [normalizedRecord, h],
      fun h => by simp [normalizedRecord, h], fun icon2 => ?_⟩
    rw [handleTab_registration]
    have hpass2 : passesChecks v { t with icon := icon2 } = true := by
      simpa [passesChecks] using hpass
    rw [hpass2, if_pos rfl]
    rfl
  · simp [hpass] at hr

/-- C7 witness: a record with a wrong-shaped icon (the number 42) still
registers, with no icon-class token. -/
theorem c7_witness :
    (handleTab okValidators "pub7" demoBadIconTab).2 =
        some (normalizedRecord "pub7" demoBadIconTab) ∧
      ((isValidIcon demoBadIconTab.icon = true →
          (normalizedRecord "pub7" demoBadIconTab).iconClass =
            some (createCSSRuleForIcon demoBadIconTab.icon "pub7")) ∧
        (isValidIcon demoBadIconTab.icon = false →
          (normalizedRecord "pub7" demoBadIconTab).iconClass = none) ∧
        ∀ icon2,
          ((handleTab okValidators "pub7"
            { demoBadIconTab with icon := icon2 }).2).isSome = true) :=
  ⟨rfl,
    c7_icon_degrades okValidators "pub7" demoBadIconTab
      (normalizedRecord "pub7" demoBadIconTab) rfl⟩

/-- `demoValidTab` whose single container key is an unknown kind. -/
def demoUnknownKindTab : IDashboardTabContrib :=
  { demoValidTab with container := some [("custom-container", JsonVal.null)] }

/-- C3: a record whose single container key is none of the three known
kinds sails through the dispatch — the verdict stays success, the record
registers (given the earlier checks passed), and the only diagnostic that
can appear is the description warning: nothing is emitted for the unknown
kind. -/
theorem c3_unknown_kind_accepted (v : Validators) (pub : String)
    (t : IDashboardTabContrib) (k : String) (val : JsonVal)
    (ht : strFalsy t.title = false)
    (hc : t.container = some [(k, val)])
    (hk1 : k ≠ WIDGETS_CONTAINER) (hk2 : k ≠ GRID_CONTAINER)
    (hk3 : k ≠ NAV_SECTION) :
    (handleTab v pub t).2 = some (normalizedRecord pub t) ∧
      (handleTab v pub t).1 = warnsOf t := by
  have hd : dispatchContainer v k val = (true, []) := by
    simp [dispatchContainer, hk1, hk2, hk3]
  rw [handleTab_single v pub t k val ht hc, hd]
  simp

/-- C3 witness: a record with container key "custom-container" registers
with only the (empty, description present) warning list. -/
theorem c3_witness :
    strFalsy demoUnknownKindTab.title = false ∧
      demoUnknownKindTab.container =
        some [("custom-container", JsonVal.null)] ∧
      "custom-container" ≠ WIDGETS_CONTAINER ∧
      "custom-container" ≠ GRID_CONTAINER ∧
      "custom-container" ≠ NAV_SECTION ∧
      ((handleTab gridRejectValidators "pub3" demoUnknownKindTab).2 =
          some (normalizedRecord "pub3" demoUnknownKindTab) ∧
        (handleTab gridRejectValidators "pub3" demoUnknownKindTab).1 =
          warnsOf demoUnknownKindTab) :=
  ⟨rfl, rfl, by decide, by decide, by decide,
    c3_unknown_kind_accepted gridRejectValidators "pub3" demoUnknownKindTab
      "custom-container" JsonVal.null rfl rfl (by decide) (by decide)
      (by decide)⟩

/-- `demoValidTab` with an empty container mapping (zero keys). -/
def demoZeroKeyTab : IDashboardTabContrib :=
  { demoValidTab with container := some [] }

/-- C4: a record with a truthy title whose container mapping has a key
count other than one is dropped with exactly one error diagnostic, and the
container-kind validators are never consulted: the outcome is identical
for every validator family. -/
theorem c4_bad_arity_rejected (v : Validators) (pub : String)
    (t : IDashboardTabContrib) (c : List (String × JsonVal))
    (ht : strFalsy t.title = false) (hc : t.container = some c)
    (hl : c.length ≠ 1) :
    (handleTab v pub t).2 = none ∧
      ((handleTab v pub t).1.filter
        (fun d => d.severity == Severity.error)).length = 1 ∧
      ∀ v2 : Validators, handleTab v2 pub t = handleTab v pub t := by
  have h := handleTab_bad_arity v pub t c ht hc hl
  refine ⟨by rw [h], ?_,
    fun v2 => by rw [handleTab_bad_arity v2 pub t c ht hc hl, h]⟩
  rw [h]
  by_cases hd : strFalsy t.description <;>
    simp [warnsOf, hd, containerArityDiag, noDescriptionDiag]

/-- C4 witness: a record whose container mapping has zero keys is dropped
with one error diagnostic, independent of the plugged validators. -/
theorem c4_witness :
    strFalsy demoZeroKeyTab.title = false ∧
      demoZeroKeyTab.container = some ([] : List (String × JsonVal)) ∧
      ([] : List (String × JsonVal)).length ≠ 1 ∧
      ((handleTab gridRejectValidators "pub4" demoZeroKeyTab).2 = none ∧
        ((handleTab gridRejectValidators "pub4" demoZeroKeyTab).1.filter
          (fun d => d.severity == Severity.error)).length = 1 ∧
        ∀ v2 : Validators, handleTab v2 "pub4" demoZeroKeyTab =
          handleTab gridRejectValidators "pub4" demoZeroKeyTab) :=
  ⟨rfl, rfl, by decide,
    c4_bad_arity_rejected gridRejectValidators "pub4" demoZeroKeyTab []
      rfl rfl (by decide)⟩

/-- C8: at startup exactly the six fixed tab groups are handed to the
group-registration sink, once each, in their declared order, with no
validation or failure path. -/
theorem c8_tab_groups :
    tabGroupRegistrations = TabGroups ∧
      tabGroupRegistrations.length = 6 ∧
      tabGroupRegistrations.map IDashboardTabGroup.id =
        ["administration", "monitoring", "performance", "security",
          "troubleshooting", "settings"] ∧
      (tabGroupRegistrations.map IDashboardTabGroup.id).Nodup := by
  refine ⟨by decide, by decide, by decide, by decide⟩

/-- `demoValidTab` without a title. -/
def demoNoTitleTab : IDashboardTabContrib :=
  { demoValidTab with title := none }

/-- `demoValidTab` with a grid container (rejected by
`gridRejectValidators`). -/
def demoGridTab : IDashboardTabContrib :=
  { demoValidTab with container := some [(GRID_CONTAINER, JsonVal.obj [])] }

/-- A three-record batch: one valid, one missing its title, one whose grid
container the plugged validator rejects. -/
def demoBatch : List IDashboardTabContrib :=
  [demoValidTab, demoNoTitleTab, demoGridTab]

/-- C2: batch processing registers exactly the records passing the
structural checks, as many as the batch holds minus the rejected ones, in
input order (so an invalid record never blocks a sibling); the collector
receives the per-record diagnostic lists concatenated in input order, and
every rejected record accounts for at least one error diagnostic. -/
theorem c2_batch_processing (v : Validators) (pub : String)
    (tabs : List IDashboardTabContrib)
    (hv : validatorsReportFailures v) :
    (processTabs v pub tabs).2 =
        (tabs.filter (passesChecks v)).map (normalizedRecord pub) ∧
      (processTabs v pub tabs).2.length =
        tabs.length - (tabs.filter (fun t => !passesChecks v t)).length ∧
      (processTabs v pub tabs).1 =
        (tabs.map (fun t => (handleTab v pub t).1)).flatten ∧
      ∀ t ∈ tabs, passesChecks v t = false →
        ∃ d ∈ (handleTab v pub t).1, d.severity = Severity.error := by
  refine ⟨processTabs_registrations v pub tabs, ?_,
    processTabs_diags v pub tabs,
    fun t _ hrej => handleTab_rejected_error v hv pub t hrej⟩
  rw [processTabs_registrations, List.length_map]
  have h : tabs.length = (tabs.filter (passesChecks v)).length +
      (tabs.filter (fun t => !passesChecks v t)).length :=
    List.length_eq_length_filter_add _
  omega

/-- C2 witness: the concrete three-record batch under the grid-rejecting
validators — one registration, two rejected records each with an error. -/
theorem c2_witness :
    validatorsReportFailures gridRejectValidators ∧
      ((processTabs gridRejectValidators "pubB" demoBatch).2 =
          (demoBatch.filter (passesChecks gridRejectValidators)).map
            (normalizedRecord "pubB") ∧
        (processTabs gridRejectValidators "pubB" demoBatch).2.length =
          demoBatch.length - (demoBatch.filter
            (fun t => !passesChecks gridRejectValidators t)).length ∧
        (processTabs gridRejectValidators "pubB" demoBatch).1 =
          (demoBatch.map
            (fun t => (handleTab gridRejectValidators "pubB" t).1)).flatten ∧
        ∀ t ∈ demoBatch, passesChecks gridRejectValidators t = false →
          ∃ d ∈ (handleTab gridRejectValidators "pubB" t).1,
            d.severity = Severity.error) :=
  ⟨gridRejectValidators_report,
    c2_batch_processing gridRejectValidators "pubB" demoBatch
      gridRejectValidators_report⟩

/-- The §8 scenario input: title "Tasks", one widgets container, provider
"MSSQL", isHomeTab and alwaysShow absent. -/
def tasksTab : IDashboardTabContrib :=
  { id := none, title := some "Tasks",
    container := some [(WIDGETS_CONTAINER, JsonVal.arr [])],
    provider := ProviderField.str "MSSQL", «when» := none,
    description := none, alwaysShow := BoolField.absent,
    isHomeTab := BoolField.absent, group := none,
    icon := IconField.absent }

/-- C5 counterexample: in the §8 scenario the registered record's
isHomeTab is the absent value passed through unchanged — not the boolean
false the claim states. -/
theorem c5_counterexample :
    ((handleTab okValidators "Microsoft" tasksTab).2.map
        RegisteredTab.isHomeTab) = some BoolField.absent ∧
      BoolField.absent ≠ BoolField.bool false :=
  ⟨rfl, by decide⟩

/-- C5 amended: the scenario produces exactly one registration with
provider "MSSQL" and alwaysShow true, but isHomeTab is passed through
unchanged — it stays absent (falsy, so not a home tab) rather than being
set to the boolean false. -/
theorem c5_scenario_registration (v : Validators)
    (hw : (v.widget (JsonVal.arr [])).1 = true) :
    (handleTab v "Microsoft" tasksTab).2 =
      some { description := none, title := some "Tasks",
             container := [(WIDGETS_CONTAINER, JsonVal.arr [])],
             provider := ProviderField.str "MSSQL", «when» := none,
             id := none, alwaysShow := true, publisher := "Microsoft",
             isHomeTab := BoolField.absent, group := none,
             iconClass := none } := by
  rw [handleTab_single v "Microsoft" tasksTab WIDGETS_CONTAINER
    (JsonVal.arr []) rfl rfl]
  have hd : dispatchContainer v WIDGETS_CONTAINER (JsonVal.arr []) =
      v.widget (JsonVal.arr []) := by
    simp [dispatchContainer]
  rw [hd, hw, if_pos rfl]
  rfl

/-- C5 witness: the amended scenario under concrete accepting validators. -/
theorem c5_witness :
    (okValidators.widget (JsonVal.arr [])).1 = true ∧
      (handleTab okValidators "Microsoft" tasksTab).2 =
        some { description := none, title := some "Tasks",
               container := [(WIDGETS_CONTAINER, JsonVal.arr [])],
               provider := ProviderField.str "MSSQL", «when» := none,
               id := none, alwaysShow := true, publisher := "Microsoft",
               isHomeTab := BoolField.absent, group := none,
               iconClass := none } :=
  ⟨rfl, c5_scenario_registration okValidators rfl⟩

/-- Container validators that emit no diagnostics of their own: the
collector then only ever receives what `handleTab`'s structural checks
emit. -/
def silentValidators (v : Validators) : Prop :=
  (∀ val, (v.widget val).2 = []) ∧ (∀ val, (v.grid val).2 = []) ∧
    (∀ val, (v.nav val).2 = [])

theorem okValidators_silent : silentValidators okValidators := by
  unfold silentValidators
  exact ⟨fun _ => rfl, fun _ => rfl, fun _ => rfl⟩

theorem dispatchContainer_silent (v : Validators)
    (hv : silentValidators v) (k : String) (val : JsonVal) :
    (dispatchContainer v k val).2 = [] := by
  obtain ⟨hw, hg, hn⟩ := hv
  unfold dispatchContainer
  by_cases h1 : k == WIDGETS_CONTAINER
  · simp [h1, hw]
  · by_cases h2 : k == GRID_CONTAINER
    · simp [h1, h2, hg]
    · by_cases h3 : k == NAV_SECTION
      · simp [h1, h2, h3, hn]
      · simp [h1, h2, h3]

/-- A record with every optional field missing. -/
def demoAllMissingTab : IDashboardTabContrib :=
  { id := none, title := none, container := none,
    provider := ProviderField.absent, «when» := none, description := none,
    alwaysShow := BoolField.absent, isHomeTab := BoolField.absent,
    group := none, icon := IconField.absent }

/-- C10: a record missing title, container and description produces
exactly one diagnostic in total — the title error — because the title
check aborts the record before the description and container checks run;
and in general the structural checks emit at most one error diagnostic per
record (validators held silent so only structural diagnostics appear). -/
theorem c10_title_abort_single_diag (v : Validators) (pub : String)
    (t : IDashboardTabContrib) (hv : silentValidators v)
    (ht : strFalsy t.title = true) (hc : t.container = none)
    (hd : strFalsy t.description = true) :
    (handleTab v pub t).1 = [noTitleDiag] ∧
      (handleTab v pub t).2 = none ∧
      ∀ t2 : IDashboardTabContrib,
        (((handleTab v pub t2).1).filter
          (fun d => d.severity == Severity.error)).length ≤ 1 := by
  have h1 := handleTab_title_falsy v pub t ht
  refine ⟨by rw [h1], by rw [h1], ?_⟩
  intro t2
  have hw2 : (warnsOf t2).filter (fun d => d.severity == Severity.error) =
      [] := by
    by_cases hdd : strFalsy t2.description <;>
      simp [warnsOf, hdd, noDescriptionDiag]
  by_cases ht2 : strFalsy t2.title
  · rw [handleTab_title_falsy v pub t2 ht2]
    simp [noTitleDiag]
  · simp only [Bool.not_eq_true] at ht2
    match hcc : t2.container with
    | none =>
      rw [handleTab_no_container v pub t2 ht2 hcc]
      simp [List.filter_append, hw2, noContainerDiag]
    | some c =>
      by_cases hl : c.length = 1
      · obtain ⟨p, hp⟩ := List.length_eq_one.mp hl
        obtain ⟨k, val⟩ := p
        rw [hp] at hcc
        rw [handleTab_single v pub t2 k val ht2 hcc]
        simp [List.filter_append, hw2, dispatchContainer_silent v hv k val]
      · rw [handleTab_bad_arity v pub t2 c ht2 hcc hl]
        simp [List.filter_append, hw2, containerArityDiag]

/-- C10 witness: the all-missing record under silent validators — one
title error and nothing else, no registration. -/
theorem c10_witness :
    silentValidators okValidators ∧
      strFalsy demoAllMissingTab.title = true ∧
      demoAllMissingTab.container = none ∧
      strFalsy demoAllMissingTab.description = true ∧
      ((handleTab okValidators "pubT" demoAllMissingTab).1 =
          [noTitleDiag] ∧
        (handleTab okValidators "pubT" demoAllMissingTab).2 = none ∧
        ∀ t2 : IDashboardTabContrib,
          (((handleTab okValidators "pubT" t2).1).filter
            (fun d => d.severity == Severity.error)).length ≤ 1) :=
  ⟨okValidators_silent, rfl, rfl, rfl,
    c10_title_abort_single_diag okValidators "pubT" demoAllMissingTab
      okValidators_silent rfl rfl rfl⟩
